import Mathlib

set_option autoImplicit false

/-!
Verification of the xamr core layer (src/xamr/core.py) against its
natural-language specification.

The Python source is shallowly embedded: pure computations become Lean
functions, mutation of `AMReXDataset` / `AMReXDataArray` /
`AMReXCalculations` state becomes explicit state passing, Python
exceptions become `Except`, Python floats become `ℚ` (only ordering and
exact arithmetic on small constants are relied upon), and calls into the
external libraries (yt, numpy) are modelled by their documented contracts
(passed in as environment records or constrained hypotheses).
-/

/-- A yt field identifier: a `(namespace, name)` pair such as
`("boxlib", "temperature")` (source: tuples stored in `data_vars`). -/
structure FieldTuple where
  ns : String
  name : String
deriving DecidableEq, Repr

/-- Python exceptions raised by `src/xamr/core.py`, with their
interpolated message data carried structurally:
* `valueErrorInvalidDim dim` — `ValueError(f"Invalid dimension: {dim}")`
  in `AMReXCalculations.gradient` (spec taxonomy: InvalidArgument);
* `valueErrorLevelRange l m` — `ValueError(f"Level {l} is out of range.
  Must be between 0 and {m}")` in `AMReXDataArray.values`
  (spec taxonomy: RangeError);
* `keyErrorFieldName f` — `KeyError(f"Field '{f}' not found")` in
  `AMReXDataset.__getitem__`, and `KeyError(f)` from a Python dict miss
  (spec taxonomy: NotFound);
* `keyErrorFieldLoad f` — the wrapped `KeyError` raised by
  `AMReXDataArray._load_coarsest_data` when both grid reads fail;
* `keyErrorFieldAtLevel f l` — the wrapped `KeyError` raised by
  `AMReXDataArray.values` when a level-`l` read fails;
* `indexErrorTooMany m g` — `IndexError(f"Too many indices. Expected at
  most {m}, got {g}")` in `AMReXDataArray.__getitem__`;
* `indexErrorListRange` — Python list index out of range;
* `valueErrorSliceStepZero` — `slice.indices` with a zero step. -/
inductive PyErr where
  | valueErrorInvalidDim (dim : String)
  | valueErrorLevelRange (level : Int) (maxLevel : Int)
  | keyErrorFieldName (field : String)
  | keyErrorFieldLoad (field : String)
  | keyErrorFieldAtLevel (field : String) (level : Int)
  | indexErrorTooMany (maxAllowed : Nat) (got : Nat)
  | indexErrorListRange
  | valueErrorSliceStepZero
deriving DecidableEq, Repr

/-- A numpy array as observed by the claims under verification: the
claims inspect shapes, identities and error behaviour, never numeric
cell contents, so an array is carried as its shape plus an opaque tag
standing in for its contents. -/
structure NdArr where
  shape : List Nat
  tag : Nat
deriving DecidableEq, Repr

/-- Default array used where Python would index a nonempty list
(`AMReXDataset` construction guarantees at least one snapshot). -/
def dfltArr : NdArr := ⟨[], 0⟩

/-- Python `dict` lookup on an association list (insertion-ordered, as
Python dicts are). -/
def dictLookup (d : List (String × FieldTuple)) (k : String) : Option FieldTuple :=
  (d.find? (fun p => p.1 = k)).map Prod.snd

/-- Python `k in dict`. -/
def dictMember (d : List (String × FieldTuple)) (k : String) : Bool :=
  (dictLookup d k).isSome

/-- Python `dict[k] = v` for a key not yet present appends the binding
(insertion order); for an existing key it would overwrite, but the
source only ever assigns under a `not in` guard. -/
def dictInsertNew (d : List (String × FieldTuple)) (k : String) (v : FieldTuple) :
    List (String × FieldTuple) :=
  d ++ [(k, v)]

/-- Number of bindings for key `k` (to state that no duplicate entry is
created). -/
def dictCount (d : List (String × FieldTuple)) (k : String) : Nat :=
  (d.filter (fun p => p.1 = k)).length

/-- The axis-name list `['x', 'y', 'z']` from the source. -/
def axisNames : List String := ["x", "y", "z"]

/-- `['x', 'y', 'z'][:dimensionality]` — the spatial coordinate names. -/
def coordNames (dimensionality : Nat) : List String :=
  axisNames.take dimensionality

/- ### Time-series construction: the sorting step of
`AMReXDataset._setup_time_series` (core.py lines 69-73). -/

/-- The state permuted by the sorting step: `_files`, `_times` and
`_yt_datasets` (datasets carried as opaque handles). -/
structure TimeSeriesState where
  files : List String
  times : List ℚ
  ytds : List Nat
deriving DecidableEq, Repr

/-- `[xs[i] for i in idx]` — fancy-indexing a list by an index list, as
the source does with `sorted_indices`.  The default is never reached for
an index list that is a permutation of `range len(xs)`. -/
def permuteBy {α : Type} (idx : List Nat) (d : α) (xs : List α) : List α :=
  idx.map (fun i => xs.getD i d)

/-- Lines 70-73 of core.py: `sorted_indices = np.argsort(self._times)`
followed by permuting `_yt_datasets`, `_times` and `_files` by the same
index list. -/
def sortStep (idx : List Nat) (st : TimeSeriesState) : TimeSeriesState :=
  { files := permuteBy idx "" st.files
    times := permuteBy idx 0 st.times
    ytds := permuteBy idx 0 st.ytds }

/-- Documented contract of `np.argsort(ts)` with the default
`kind='quicksort'`: the result is a permutation of `range(len(ts))`
along which `ts` is nondecreasing.  numpy documents the default kind as
NOT stable, so the order of tied entries is unspecified; every index
list satisfying this contract is a possible return value. -/
def IsArgsortOf (ts : List ℚ) (idx : List Nat) : Prop :=
  idx.Perm (List.range ts.length) ∧ (permuteBy idx 0 ts).Chain' (· ≤ ·)

/-- The spec's words: a stable sort breaks ties by original order, i.e.
whenever `i` is placed before `j` and their times are equal, `i < j`. -/
def StableTieBreak (ts : List ℚ) (idx : List Nat) : Prop :=
  idx.Pairwise (fun i j => ts.getD i 0 = ts.getD j 0 → i < j)

/- ### Spatial selection: `AMReXDataArray.spatial_select`
(core.py lines 332-357). -/

/-- A keyword argument of `spatial_select`: either a Python `slice`
(only `start`/`stop` are read by the source) or a scalar coordinate. -/
inductive SelArg where
  | scalar (v : ℚ)
  | interval (start stop : Option ℚ)
deriving DecidableEq, Repr

/-- The parts of the parent dataset read by `spatial_select`:
`self.parent._yt_ds.dimensionality` and
`self.parent.coords[f"{dim}_range"]` (domain min/max per axis). -/
structure DomainInfo where
  dimensionality : Nat
  ranges : String → ℚ × ℚ

/-- Python's `x or d` for `x` a number-or-None slice bound: `None` and
`0` are falsy, so both fall back to the default. -/
def pyOrQ (x : Option ℚ) (d : ℚ) : ℚ :=
  match x with
  | none => d
  | some v => if v = 0 then d else v

/-- The per-axis `(left_edge, right_edge)` entry built by the loop body
of `spatial_select`. -/
def selectBounds (dom : DomainInfo) (kwargs : String → Option SelArg)
    (dim : String) : ℚ × ℚ :=
  match kwargs dim with
  | some (SelArg.interval start stop) =>
      (pyOrQ start (dom.ranges dim).1, pyOrQ stop (dom.ranges dim).2)
  | some (SelArg.scalar v) =>
      let delta := (1 / 100 : ℚ) * ((dom.ranges dim).2 - (dom.ranges dim).1)
      (v - delta, v + delta)
  | none => ((dom.ranges dim).1, (dom.ranges dim).2)

/-- `spatial_select(**kwargs)`: the `(left_edge, right_edge)` pair of
lists handed to `self.parent._yt_ds.region` (the Engine's region
constructor; the returned DataArray wraps that region). -/
def spatialSelect (dom : DomainInfo) (kwargs : String → Option SelArg) :
    List ℚ × List ℚ :=
  ((coordNames dom.dimensionality).map (fun d => (selectBounds dom kwargs d).1),
   (coordNames dom.dimensionality).map (fun d => (selectBounds dom kwargs d).2))

/- ### DataArray state and the per-snapshot Engine reads
(`AMReXDataArray`, core.py lines 169-425). -/

/-- The Engine-side reads available to one DataArray's field for one
snapshot, by their documented contract (`some` = the read succeeds and
yields that array, `none` = the Engine raises `KeyError`):
* `coarse` — reading the field from the prebuilt coarsest covering grid
  (`self.parent._coarsest_grids[i][self._field_tuple]`);
* `fresh` — the fallback read from a freshly built level-0 covering grid
  (same 1-ghost-cell construction);
* `atLevel l` — reading from a covering grid built at level `l`
  (dimensions scaled by `refine_by ** l`). -/
structure SnapRead where
  coarse : Option NdArr
  fresh : Option NdArr
  atLevel : Int → Option NdArr

/-- A Python index: an integer or a slice (start/stop/step). -/
inductive PyIndex where
  | int (i : Int)
  | slc (start stop step : Option Int)
deriving DecidableEq, Repr

/-- numpy operations used by `__getitem__` / `values`, by contract:
`index a key` is `a[tuple(key)]` and `stack xs` is `np.array(xs)`. -/
structure NpEnv where
  index : NdArr → List PyIndex → NdArr
  stack : List NdArr → NdArr

/-- The immutable context one `AMReXDataArray` reads from: its field
name, `parent._yt_ds.dimensionality`, `parent._yt_ds.max_level`, the
per-snapshot Engine reads (one entry per snapshot, so `snaps.length =
len(parent._times)`), and the numpy collaborator. -/
structure DAEnv where
  fieldName : String
  dims : Nat
  maxLevel : Nat
  snaps : List SnapRead
  np : NpEnv

/-- The mutable state of one `AMReXDataArray` instance as set by
`__init__` (core.py lines 188-195): field display name, resolved field
tuple, whether the selection handle is the default (`selection_obj or
parent_ds._all_data[0]`; Engine selection objects are truthy), the two
lazily populated caches (both `None` at construction), and an object
identity (Python allocates a fresh object per construction; object
identity is modelled by a counter). -/
structure DataArrayObj where
  fieldName : String
  fieldTuple : FieldTuple
  selectionDefault : Bool
  dataCache : Option NdArr
  coarsestCache : Option (List NdArr)
  objId : Nat
deriving DecidableEq, Repr

/-- The per-snapshot body of `_load_coarsest_data` (core.py lines
259-282): try the prebuilt coarsest grid, fall back to a fresh covering
grid, else raise the wrapped `KeyError`. -/
def loadSnap (fieldName : String) (s : SnapRead) : Except PyErr NdArr :=
  match s.coarse with
  | some a => .ok a
  | none =>
    match s.fresh with
    | some a => .ok a
    | none => .error (.keyErrorFieldLoad fieldName)

/-- Left-to-right effectful map over a list, propagating the first
Python exception — the shape of every `for ... raise` loop in the
source. -/
def exceptMapList {α β : Type} (f : α → Except PyErr β) : List α → Except PyErr (List β)
  | [] => .ok []
  | x :: xs => do
    let y ← f x
    let ys ← exceptMapList f xs
    .ok (y :: ys)

/-- `_load_coarsest_data`: one array per snapshot, in snapshot order. -/
def loadCoarsestData (env : DAEnv) : Except PyErr (List NdArr) :=
  exceptMapList (loadSnap env.fieldName) env.snaps

/-- The `if self._coarsest_data is None: self._load_coarsest_data()`
guard shared by `__getitem__`, `shape` and `values`. -/
def ensureCache (env : DAEnv) (st : DataArrayObj) :
    Except PyErr (DataArrayObj × List NdArr) :=
  match st.coarsestCache with
  | some arrs => .ok (st, arrs)
  | none =>
    (loadCoarsestData env).map
      (fun arrs => ({ st with coarsestCache := some arrs }, arrs))

/-- Python list indexing `xs[i]` with an `int` index: negative indices
count from the end; out of range raises `IndexError`. -/
def pyListGet {α : Type} (xs : List α) (i : Int) : Except PyErr α :=
  let j := if i < 0 then i + (xs.length : Int) else i
  if 0 ≤ j then
    match xs[j.toNat]? with
    | some a => .ok a
    | none => .error .indexErrorListRange
  else .error .indexErrorListRange

/-- CPython `slice.indices(length)` (used on the time index): clamps
start/stop into range for the sign of the step; a zero step raises
`ValueError`. -/
def sliceIndices (start stop step : Option Int) (len : Nat) :
    Except PyErr (Int × Int × Int) :=
  let n : Int := len
  match step with
  | some 0 => .error .valueErrorSliceStepZero
  | _ =>
    let s := step.getD 1
    if 0 < s then
      let a := match start with
        | none => 0
        | some v => if v < 0 then max (v + n) 0 else min v n
      let b := match stop with
        | none => n
        | some v => if v < 0 then max (v + n) 0 else min v n
      .ok (a, b, s)
    else
      let a := match start with
        | none => n - 1
        | some v => if v < 0 then max (v + n) (-1) else min v (n - 1)
      let b := match stop with
        | none => -1
        | some v => if v < 0 then max (v + n) (-1) else min v (n - 1)
      .ok (a, b, s)

/-- Number of elements of Python `range(start, stop, step)` (step
nonzero). -/
def pyRangeLen (start stop step : Int) : Nat :=
  if 0 < step then (((stop - start) + step - 1) / step).toNat
  else (((start - stop) + (-step) - 1) / (-step)).toNat

/-- Python `range(start, stop, step)` as a list. -/
def pyRange (start stop step : Int) : List Int :=
  (List.range (pyRangeLen start stop step)).map (fun k => start + step * k)

/-- `AMReXDataArray.__getitem__` (core.py lines 197-253).  The key is
the positional index tuple (a bare index arrives as a 1-tuple).  Note:
in Python an exception escapes after the cache may already have been
populated; the claims never observe the post-state of a failing call,
so a failing call here returns just the exception. -/
def getitem (env : DAEnv) (st : DataArrayObj) (key : List PyIndex) :
    Except PyErr (DataArrayObj × NdArr) := do
  let (st1, cache) ← ensureCache env st
  let hasTime := 1 < env.snaps.length
  let nSpatialDims := env.dims
  if hasTime then
    let expectedDims := 1 + nSpatialDims
    if expectedDims < key.length then
      .error (.indexErrorTooMany expectedDims key.length)
    else
      let timeIdx := key.headD (PyIndex.slc none none none)
      let spatialKey := if 1 < key.length then key.tail else []
      match timeIdx with
      | PyIndex.slc a b c => do
        let (tStart, tStop, tStep) ← sliceIndices a b c cache.length
        let rows := (pyRange tStart tStop tStep).map (fun t =>
          if spatialKey ≠ [] then env.np.index (cache.getD t.toNat dfltArr) spatialKey
          else cache.getD t.toNat dfltArr)
        .ok (st1, env.np.stack rows)
      | PyIndex.int t => do
        let row ← pyListGet cache t
        if spatialKey ≠ [] then .ok (st1, env.np.index row spatialKey)
        else .ok (st1, row)
  else
    if nSpatialDims < key.length then
      .error (.indexErrorTooMany nSpatialDims key.length)
    else
      .ok (st1, env.np.index (cache.headD dfltArr) key)

/-- `AMReXDataArray.shape` (core.py lines 304-315). -/
def shapeProp (env : DAEnv) (st : DataArrayObj) :
    Except PyErr (DataArrayObj × List Nat) :=
  (ensureCache env st).map (fun p =>
    if 1 < env.snaps.length then (p.1, p.2.length :: (p.2.headD dfltArr).shape)
    else (p.1, (p.2.headD dfltArr).shape))

/-- The per-snapshot body of the `level > 0` loop of `values` (core.py
lines 406-420): build a covering grid at the requested level and read
the field, wrapping a failed read in the level-naming `KeyError`. -/
def levelRead (env : DAEnv) (l : Int) (s : SnapRead) : Except PyErr NdArr :=
  match s.atLevel l with
  | some a => .ok a
  | none => .error (.keyErrorFieldAtLevel env.fieldName l)

/-- `AMReXDataArray.values(level)` (core.py lines 375-425). -/
def valuesMeth (env : DAEnv) (st : DataArrayObj) (level : Option Int) :
    Except PyErr (DataArrayObj × NdArr) :=
  let l : Int := level.getD 0
  if l < 0 ∨ (env.maxLevel : Int) < l then
    .error (.valueErrorLevelRange l env.maxLevel)
  else if l = 0 then
    (ensureCache env st).map (fun p =>
      if 1 < env.snaps.length then (p.1, env.np.stack p.2)
      else (p.1, p.2.headD dfltArr))
  else
    (exceptMapList (levelRead env l) env.snaps).map
      (fun result =>
        if 1 < env.snaps.length then (st, env.np.stack result)
        else (st, result.headD dfltArr))

/- ### Dataset field access: `AMReXDataset.__getitem__` (core.py lines
138-142) and `AMReXDataArray.__init__` (lines 188-195). -/

/-- The dataset state read by field access, plus the allocation counter
modelling Python object identity of freshly constructed DataArrays. -/
structure DSGetState where
  dataVars : List (String × FieldTuple)
  nextId : Nat
deriving DecidableEq, Repr

/-- `dataset[name]`: `KeyError` when `name not in data_vars`, else a
freshly constructed `AMReXDataArray(self, name)` — field tuple resolved
from `data_vars`, default selection, both caches `None`. -/
def datasetGetItem (st : DSGetState) (name : String) :
    Except PyErr (DataArrayObj × DSGetState) :=
  match dictLookup st.dataVars name with
  | none => .error (.keyErrorFieldName name)
  | some ft =>
      .ok (⟨name, ft, true, none, none, st.nextId⟩,
           { st with nextId := st.nextId + 1 })

/- ### Calculations: `AMReXCalculations` (core.py lines 428-530). -/

/-- The Engine-side registry of one snapshot observed by the
calculations code: its `derived_field_list` (a yt dataset attribute). -/
structure SnapState where
  derivedFields : List FieldTuple
deriving DecidableEq, Repr

/-- Dataset-plus-Engine state touched by `AMReXCalculations`:
`data_vars`, the per-snapshot derived-field registries,
`_yt_ds.dimensionality`, and two instrumentation counters giving the
number of calls made into the Engine's two registration entry points
(`add_gradient_fields` and `add_field`) — the "registration call count"
of the spec. -/
structure CalcState where
  dataVars : List (String × FieldTuple)
  snaps : List SnapState
  dimensionality : Nat
  gradRegCalls : Nat
  addFieldCalls : Nat
deriving DecidableEq, Repr

/-- Engine contract of `yt_ds.add_gradient_fields(ft)` on one snapshot:
batch-registers the per-axis gradient fields
`(ft.ns, f"{ft.name}_gradient_{ax}")` for the snapshot's axes (no
duplicates in the registry). -/
def addGradSnap (dims : Nat) (ft : FieldTuple) (s : SnapState) : SnapState :=
  { derivedFields := (coordNames dims).foldl (fun fs ax =>
      let g : FieldTuple := ⟨ft.ns, ft.name ++ "_gradient_" ++ ax⟩
      if g ∈ fs then fs else fs ++ [g]) s.derivedFields }

/-- The loop `for yt_ds in self.ds._yt_datasets:
yt_ds.add_gradient_fields(ft)` — one Engine registration call per
snapshot, every time it runs (no existence check in the source). -/
def engineAddGradAll (st : CalcState) (ft : FieldTuple) : CalcState :=
  { st with
      snaps := st.snaps.map (addGradSnap st.dimensionality ft)
      gradRegCalls := st.gradRegCalls + st.snaps.length }

/-- `AMReXCalculations._add_derived_field_to_all_timesteps` (core.py
lines 434-438): for each snapshot, `add_field` is called only if the
tuple is not already in that snapshot's `derived_field_list`.  The
per-snapshot loop body is independent across snapshots, so the new
registries and the number of `add_field` calls are computed by a map
and a filter. -/
def addDerivedFieldToAllTimesteps (st : CalcState) (ft : FieldTuple) : CalcState :=
  { st with
      snaps := st.snaps.map (fun s =>
        if ft ∈ s.derivedFields then s
        else { derivedFields := s.derivedFields ++ [ft] })
      addFieldCalls := st.addFieldCalls +
        (st.snaps.filter (fun s => decide (ft ∉ s.derivedFields))).length }

/-- The observable pieces of the `AMReXDataArray` a calculation returns:
its display name and the field tuple `__init__` resolves from
`data_vars` (each call also allocates a fresh object, as in
`datasetGetItem`; identity is not at issue in these claims). -/
structure CalcResult where
  fieldName : String
  fieldTuple : FieldTuple
deriving DecidableEq, Repr

/-- `AMReXCalculations.gradient` (core.py lines 440-458): axis check
first, then `data_vars[field]` lookup, then one unconditional
`add_gradient_fields` Engine call per snapshot, then the `data_vars`
guard, then a fresh DataArray for `f"{field}_gradient_{dim}"`. -/
def gradientMeth (st : CalcState) (field dim : String) :
    Except PyErr (CalcState × CalcResult) :=
  if dim ∉ axisNames then .error (.valueErrorInvalidDim dim)
  else
    match dictLookup st.dataVars field with
    | none => .error (.keyErrorFieldName field)
    | some ft =>
      let gradName := field ++ "_gradient_" ++ dim
      let gradTuple : FieldTuple := ⟨ft.ns, gradName⟩
      let st1 := engineAddGradAll st ft
      let st2 := if dictMember st1.dataVars gradName then st1
                 else { st1 with dataVars := dictInsertNew st1.dataVars gradName gradTuple }
      .ok (st2, ⟨gradName, (dictLookup st2.dataVars gradName).getD gradTuple⟩)

/-- The environment captured by `_divergence_function` at registration
(core.py lines 473-477): the two gradient tuples computed at
registration time, the `w_field` argument, and (through `self`) the
mutable dataset state, which is passed in at evaluation time. -/
structure DivClosure where
  uGradX : FieldTuple
  vGradY : FieldTuple
  wField : Option String
deriving DecidableEq, Repr

/-- The environment captured by `_vorticity_function` (lines 513-517). -/
structure VortClosure where
  uGradY : FieldTuple
  vGradX : FieldTuple
deriving DecidableEq, Repr

/-- `AMReXCalculations.divergence` (core.py lines 460-498) up to the
returned DataArray; also returns the closure it registered.  The source
loop registers u- and v-gradients per snapshot in one pass
(`for yt_ds: add(u); add(v)`); since snapshots are independent, two
whole-series passes produce the same state and call count. -/
def divergenceMeth (st : CalcState) (uField vField : String) (wField : Option String) :
    Except PyErr (CalcState × DivClosure × CalcResult) :=
  match dictLookup st.dataVars uField with
  | none => .error (.keyErrorFieldName uField)
  | some ut =>
    match dictLookup st.dataVars vField with
    | none => .error (.keyErrorFieldName vField)
    | some vt =>
      let divTuple : FieldTuple := ⟨"boxlib", "divergence"⟩
      let st1 := engineAddGradAll (engineAddGradAll st ut) vt
      let c : DivClosure := ⟨⟨ut.ns, uField ++ "_gradient_x"⟩,
                             ⟨vt.ns, vField ++ "_gradient_y"⟩, wField⟩
      let st2 := addDerivedFieldToAllTimesteps st1 divTuple
      let st3 := if dictMember st2.dataVars "divergence" then st2
                 else { st2 with dataVars := dictInsertNew st2.dataVars "divergence" divTuple }
      .ok (st3, c, ⟨"divergence", (dictLookup st3.dataVars "divergence").getD divTuple⟩)

/-- `_divergence_function` (core.py lines 476-486) as finally evaluated
by the Engine.  `data` samples any already-evaluable field at the cell
being computed (the numpy arrays combine elementwise; an `Int` carrier
stands for one cell's value).  The function reads the *current* dataset
state through the captured `self`: Python truthiness makes `None` and
`""` falsy for `w_field`, and when `w_field` is truthy and the
dimensionality is 3 it resolves `data_vars[w_field]` and calls the
Engine's gradient registration for every snapshot — at evaluation
time. -/
def divergenceRecipeEval (c : DivClosure) (st : CalcState) (data : FieldTuple → Int) :
    Except PyErr (CalcState × Int) :=
  let div := data c.uGradX + data c.vGradY
  match c.wField with
  | none => .ok (st, div)
  | some w =>
    if w ≠ "" ∧ st.dimensionality = 3 then
      match dictLookup st.dataVars w with
      | none => .error (.keyErrorFieldName w)
      | some wt =>
        let st1 := engineAddGradAll st wt
        .ok (st1, div + data ⟨wt.ns, w ++ "_gradient_z"⟩)
    else .ok (st, div)

/-- `AMReXCalculations.vorticity` (core.py lines 500-529). -/
def vorticityMeth (st : CalcState) (uField vField : String) :
    Except PyErr (CalcState × VortClosure × CalcResult) :=
  match dictLookup st.dataVars uField with
  | none => .error (.keyErrorFieldName uField)
  | some ut =>
    match dictLookup st.dataVars vField with
    | none => .error (.keyErrorFieldName vField)
    | some vt =>
      let vortTuple : FieldTuple := ⟨"boxlib", "vorticity_z"⟩
      let st1 := engineAddGradAll (engineAddGradAll st ut) vt
      let c : VortClosure := ⟨⟨ut.ns, uField ++ "_gradient_y"⟩,
                              ⟨vt.ns, vField ++ "_gradient_x"⟩⟩
      let st2 := addDerivedFieldToAllTimesteps st1 vortTuple
      let st3 := if dictMember st2.dataVars "vorticity_z" then st2
                 else { st2 with dataVars := dictInsertNew st2.dataVars "vorticity_z" vortTuple }
      .ok (st3, c, ⟨"vorticity_z", (dictLookup st3.dataVars "vorticity_z").getD vortTuple⟩)

/-- `_vorticity_function` (core.py lines 516-517): a pure elementwise
combination of the two tuples captured at registration time. -/
def vorticityRecipeEval (c : VortClosure) (st : CalcState) (data : FieldTuple → Int) :
    Except PyErr (CalcState × Int) :=
  .ok (st, data c.vGradX - data c.uGradY)

/- ### Supporting lemmas -/

theorem exceptMapList_ok_length {α β : Type} (f : α → Except PyErr β) :
    ∀ (xs : List α) (ys : List β), exceptMapList f xs = .ok ys → ys.length = xs.length := by
  intro xs
  induction xs with
  | nil => intro ys h; cases h; rfl
  | cons x xs ih =>
    intro ys h
    unfold exceptMapList at h
    cases hx : f x with
    | error e => rw [hx] at h; cases h
    | ok y =>
      rw [hx] at h
      cases hxs : exceptMapList f xs with
      | error e => rw [hxs] at h; cases h
      | ok ys' =>
        rw [hxs] at h
        cases h
        simp [ih ys' hxs]

theorem exceptMapList_error {α β : Type} (f : α → Except PyErr β) :
    ∀ (xs : List α) (e : PyErr), exceptMapList f xs = .error e → ∃ x ∈ xs, f x = .error e := by
  intro xs
  induction xs with
  | nil => intro e h; cases h
  | cons x xs ih =>
    intro e h
    unfold exceptMapList at h
    cases hx : f x with
    | error e' =>
      rw [hx] at h
      cases h
      exact ⟨x, List.mem_cons_self x xs, hx⟩
    | ok y =>
      rw [hx] at h
      cases hxs : exceptMapList f xs with
      | error e' =>
        rw [hxs] at h
        cases h
        obtain ⟨z, hz, hfz⟩ := ih e hxs
        exact ⟨z, List.mem_cons_of_mem x hz, hfz⟩
      | ok ys' => rw [hxs] at h; cases h

theorem loadSnap_error (n : String) (s : SnapRead) (e : PyErr)
    (h : loadSnap n s = .error e) : e = .keyErrorFieldLoad n := by
  unfold loadSnap at h
  cases hc : s.coarse with
  | some a => rw [hc] at h; cases h
  | none =>
    rw [hc] at h
    cases hf : s.fresh with
    | some a => rw [hf] at h; cases h
    | none => rw [hf] at h; cases h; rfl

theorem loadCoarsestData_error (env : DAEnv) (e : PyErr)
    (h : loadCoarsestData env = .error e) : e = .keyErrorFieldLoad env.fieldName := by
  obtain ⟨s, _, hs⟩ := exceptMapList_error _ _ _ h
  exact loadSnap_error _ _ _ hs

theorem ensureCache_error (env : DAEnv) (st : DataArrayObj) (e : PyErr)
    (h : ensureCache env st = .error e) : e = .keyErrorFieldLoad env.fieldName := by
  unfold ensureCache at h
  cases hc : st.coarsestCache with
  | some arrs => rw [hc] at h; cases h
  | none =>
    rw [hc] at h
    cases hl : loadCoarsestData env with
    | error e' =>
      rw [hl] at h
      cases h
      exact loadCoarsestData_error env e hl
    | ok arrs => rw [hl] at h; cases h

theorem dictLookup_append_of_some (d e : List (String × FieldTuple)) (k : String)
    (v : FieldTuple) (h : dictLookup d k = some v) : dictLookup (d ++ e) k = some v := by
  unfold dictLookup at h ⊢
  rw [List.find?_append]
  cases hf : List.find? (fun p => decide (p.1 = k)) d with
  | none => rw [hf] at h; cases h
  | some p =>
    rw [hf] at h
    exact h

theorem map_getD_range {α : Type} (d : α) :
    ∀ xs : List α, (List.range xs.length).map (fun i => xs.getD i d) = xs := by
  intro xs
  induction xs with
  | nil => rfl
  | cons x xs ih =>
    rw [List.length_cons, List.range_succ_eq_map, List.map_cons, List.map_map]
    refine congrArg (x :: ·) ?_
    have hfun : ((fun i => (x :: xs).getD i d) ∘ Nat.succ) = (fun i => xs.getD i d) := by
      funext i
      simp [List.getD_cons_succ]
    rw [hfun]
    exact ih

theorem permuteBy_perm_self {α : Type} (d : α) (idx : List Nat) (xs : List α)
    (h : idx.Perm (List.range xs.length)) : (permuteBy idx d xs).Perm xs := by
  have h1 : (permuteBy idx d xs).Perm (permuteBy (List.range xs.length) d xs) :=
    h.map (fun i => xs.getD i d)
  have h2 : permuteBy (List.range xs.length) d xs = xs := map_getD_range d xs
  rwa [h2] at h1

/- ### Claim C5 -/

/-- Claim C5: for every field argument (valid or not) and every axis
argument outside `{x, y, z}`, `calc.gradient(field, axis)` fails with
the invalid-argument `ValueError`; the axis check precedes any field
lookup, so field validity never changes the outcome. -/
theorem gradient_invalid_axis (st : CalcState) (field dim : String)
    (h : dim ∉ axisNames) :
    gradientMeth st field dim = .error (.valueErrorInvalidDim dim) := by
  unfold gradientMeth
  rw [if_pos h]

/-- Witness for C5 at a concrete input whose field argument is not even
a key of `data_vars`. -/
theorem gradient_invalid_axis_witness :
    "t" ∉ axisNames ∧
    dictLookup [("temperature", ⟨"boxlib", "temperature"⟩)] "nobody" = none ∧
    gradientMeth ⟨[("temperature", ⟨"boxlib", "temperature"⟩)], [⟨[]⟩], 3, 0, 0⟩ "nobody" "t" =
      .error (.valueErrorInvalidDim "t") :=
  ⟨by decide, by decide,
   gradient_invalid_axis ⟨[("temperature", ⟨"boxlib", "temperature"⟩)], [⟨[]⟩], 3, 0, 0⟩
     "nobody" "t" (by decide)⟩

/- ### Claim C9 -/

/-- Claim C9: `dataset[name]` fails with the NotFound `KeyError` exactly
when `name` is not a key of `data_vars`; for every present name it
returns a fresh DataArray whose `field_name` is `name`, and two
successive calls return distinct objects carrying the same field
identifier (and the default selection and empty caches). -/
theorem dataset_getitem_spec (st : DSGetState) (name : String) :
    (dictLookup st.dataVars name = none →
      datasetGetItem st name = .error (.keyErrorFieldName name)) ∧
    (∀ ft, dictLookup st.dataVars name = some ft →
      ∃ a st1 b st2,
        datasetGetItem st name = .ok (a, st1) ∧
        datasetGetItem st1 name = .ok (b, st2) ∧
        a.fieldName = name ∧ b.fieldName = name ∧
        a.fieldTuple = ft ∧ b.fieldTuple = ft ∧ a.objId ≠ b.objId ∧
        a.dataCache = none ∧ a.coarsestCache = none ∧ a.selectionDefault = true) := by
  constructor
  · intro h
    unfold datasetGetItem
    rw [h]
  · intro ft h
    have h1 : datasetGetItem st name =
        .ok (⟨name, ft, true, none, none, st.nextId⟩,
             { st with nextId := st.nextId + 1 }) := by
      unfold datasetGetItem
      rw [h]
    have h2 : datasetGetItem { st with nextId := st.nextId + 1 } name =
        .ok (⟨name, ft, true, none, none, st.nextId + 1⟩,
             { st with nextId := st.nextId + 2 }) := by
      unfold datasetGetItem
      simp only
      rw [h]
    exact ⟨_, _, _, _, h1, h2, rfl, rfl, rfl, rfl, by simp, rfl, rfl, rfl⟩

/-- Witness for C9 on a concrete dataset with one field. -/
theorem dataset_getitem_spec_witness :
    dictLookup [("pressure", ⟨"boxlib", "pressure"⟩)] "pressure" = some ⟨"boxlib", "pressure"⟩ ∧
    (∃ a st1 b st2,
      datasetGetItem ⟨[("pressure", ⟨"boxlib", "pressure"⟩)], 0⟩ "pressure" = .ok (a, st1) ∧
      datasetGetItem st1 "pressure" = .ok (b, st2) ∧
      a.fieldName = "pressure" ∧ b.fieldName = "pressure" ∧
      a.fieldTuple = ⟨"boxlib", "pressure"⟩ ∧ b.fieldTuple = ⟨"boxlib", "pressure"⟩ ∧
      a.objId ≠ b.objId ∧
      a.dataCache = none ∧ a.coarsestCache = none ∧ a.selectionDefault = true) :=
  ⟨by decide,
   (dataset_getitem_spec ⟨[("pressure", ⟨"boxlib", "pressure"⟩)], 0⟩ "pressure").2
     ⟨"boxlib", "pressure"⟩ (by decide)⟩

theorem levelRead_error (env : DAEnv) (l : Int) (s : SnapRead) (e : PyErr)
    (h : levelRead env l s = .error e) : e = .keyErrorFieldAtLevel env.fieldName l := by
  unfold levelRead at h
  cases ha : s.atLevel l with
  | some a => rw [ha] at h; cases h
  | none => rw [ha] at h; cases h; rfl

theorem ensureCache_of_cached (env : DAEnv) (st : DataArrayObj) (arrs : List NdArr)
    (h : st.coarsestCache = some arrs) : ensureCache env st = .ok (st, arrs) := by
  unfold ensureCache
  rw [h]

theorem ensureCache_of_load (env : DAEnv) (st : DataArrayObj) (arrs : List NdArr)
    (hc : st.coarsestCache = none) (hl : loadCoarsestData env = .ok arrs) :
    ensureCache env st = .ok ({ st with coarsestCache := some arrs }, arrs) := by
  unfold ensureCache
  rw [hc, hl]
  rfl

/- ### Claim C6 -/

/-- Claim C6: `values(level)` fails with the RangeError `ValueError` if
and only if `level < 0` or `level > max_level` (after the `None → 0`
default), and `values(None)` is exactly `values(0)` rather than an
error.  In particular `values(-1)` and `values(max_level + 10)` always
fail, for every cache state and every Engine read outcome. -/
theorem values_level_range_iff (env : DAEnv) (st : DataArrayObj) (level : Option Int) :
    valuesMeth env st none = valuesMeth env st (some 0) ∧
    ((∃ l m, valuesMeth env st level = .error (.valueErrorLevelRange l m)) ↔
      (level.getD 0 < 0 ∨ (env.maxLevel : Int) < level.getD 0)) := by
  refine ⟨rfl, ?_⟩
  by_cases hr : level.getD 0 < 0 ∨ (env.maxLevel : Int) < level.getD 0
  · refine ⟨fun _ => hr, fun _ => ⟨level.getD 0, env.maxLevel, ?_⟩⟩
    simp only [valuesMeth]
    rw [if_pos hr]
  · refine ⟨?_, fun hx => absurd hx hr⟩
    rintro ⟨l, m, h⟩
    exfalso
    simp only [valuesMeth] at h
    rw [if_neg hr] at h
    by_cases h0 : level.getD 0 = 0
    · rw [if_pos h0] at h
      cases he : ensureCache env st with
      | error e =>
        rw [he] at h
        simp only [Except.map] at h
        injection h with h'
        have hk := ensureCache_error env st e he
        rw [hk] at h'
        cases h'
      | ok p =>
        rw [he] at h
        simp only [Except.map] at h
        cases h
    · rw [if_neg h0] at h
      cases he : exceptMapList (levelRead env (level.getD 0)) env.snaps with
      | error e =>
        rw [he] at h
        simp only [Except.map] at h
        injection h with h'
        obtain ⟨s, _, hs⟩ := exceptMapList_error _ _ _ he
        have hk := levelRead_error env (level.getD 0) s e hs
        rw [hk] at h'
        cases h'
      | ok res =>
        rw [he] at h
        simp only [Except.map] at h
        cases h

/- ### Claim C7 -/

/-- Claim C7: indexing with more positional indices than allowed fails
with the out-of-range `IndexError` carrying the maximum allowed: the
maximum is `1 + dimensionality` when the dataset has more than one
snapshot, and `dimensionality` when it has exactly one.  The hypothesis
says only that the one-time coarsest load can supply the cache (or that
it is already cached), which every indexing call performs first. -/
theorem getitem_too_many_indices (env : DAEnv) (st : DataArrayObj)
    (key : List PyIndex) (arrs : List NdArr)
    (hc : st.coarsestCache = some arrs ∨
          (st.coarsestCache = none ∧ loadCoarsestData env = .ok arrs))
    (hk : (if 1 < env.snaps.length then 1 + env.dims else env.dims) < key.length) :
    getitem env st key =
      .error (.indexErrorTooMany
        (if 1 < env.snaps.length then 1 + env.dims else env.dims) key.length) := by
  obtain ⟨stx, he⟩ : ∃ stx, ensureCache env st = .ok (stx, arrs) := by
    rcases hc with h | ⟨h1, h2⟩
    · exact ⟨st, ensureCache_of_cached env st arrs h⟩
    · exact ⟨_, ensureCache_of_load env st arrs h1 h2⟩
  by_cases ht : 1 < env.snaps.length
  · rw [if_pos ht] at hk ⊢
    simp [getitem, he, ht, hk]
    rfl
  · rw [if_neg ht] at hk ⊢
    simp [getitem, he, ht, hk]
    rfl

/-- Witness for C7, matching the spec's own example: a single-snapshot
3-dimensional dataset indexed with four indices fails naming `3` as the
maximum. -/
theorem getitem_too_many_indices_witness :
    getitem
      ⟨"density", 3, 1, [⟨some ⟨[4, 4, 4], 7⟩, none, fun _ => none⟩],
       ⟨fun a _ => a, fun _ => dfltArr⟩⟩
      ⟨"density", ⟨"boxlib", "density"⟩, true, none, none, 0⟩
      [.int 0, .int 0, .int 0, .int 0] =
      .error (.indexErrorTooMany 3 4) := by
  have h := getitem_too_many_indices
    ⟨"density", 3, 1, [⟨some ⟨[4, 4, 4], 7⟩, none, fun _ => none⟩],
     ⟨fun a _ => a, fun _ => dfltArr⟩⟩
    ⟨"density", ⟨"boxlib", "density"⟩, true, none, none, 0⟩
    [.int 0, .int 0, .int 0, .int 0] [⟨[4, 4, 4], 7⟩]
    (Or.inr ⟨rfl, rfl⟩) (by decide)
  simpa using h

/- ### Claim C8 -/

/-- Claim C8: `shape` is `(n_timesteps,) + spatial_shape` when more than
one snapshot exists and `spatial_shape` alone when exactly one exists,
where `spatial_shape` is the shape of the first cached coarsest-grid
array; querying `shape` populates the coarsest cache when it is not yet
loaded and leaves it unchanged when it is. -/
theorem shape_coarsest_cache (env : DAEnv) (st : DataArrayObj) (arrs : List NdArr)
    (_hne : env.snaps ≠ [])
    (hl : loadCoarsestData env = .ok arrs) :
    arrs.length = env.snaps.length ∧
    (st.coarsestCache = none →
      shapeProp env st = .ok ({ st with coarsestCache := some arrs },
        if 1 < env.snaps.length then env.snaps.length :: (arrs.headD dfltArr).shape
        else (arrs.headD dfltArr).shape)) ∧
    (st.coarsestCache = some arrs →
      shapeProp env st = .ok (st,
        if 1 < env.snaps.length then env.snaps.length :: (arrs.headD dfltArr).shape
        else (arrs.headD dfltArr).shape)) := by
  have hl' : exceptMapList (loadSnap env.fieldName) env.snaps = .ok arrs := hl
  have hlen : arrs.length = env.snaps.length := exceptMapList_ok_length _ _ _ hl'
  refine ⟨hlen, ?_, ?_⟩
  · intro hcn
    unfold shapeProp
    rw [ensureCache_of_load env st arrs hcn hl]
    simp only [Except.map]
    by_cases ht : 1 < env.snaps.length
    · rw [if_pos ht, if_pos ht, hlen]
    · rw [if_neg ht, if_neg ht]
  · intro hcs
    unfold shapeProp
    rw [ensureCache_of_cached env st arrs hcs]
    simp only [Except.map]
    by_cases ht : 1 < env.snaps.length
    · rw [if_pos ht, if_pos ht, hlen]
    · rw [if_neg ht, if_neg ht]

/-- Witness for C8 on a concrete two-snapshot environment: the load
succeeds, the cache is populated, and the shape is `(2, 4, 4)`. -/
theorem shape_coarsest_cache_witness :
    loadCoarsestData
      ⟨"u", 2, 0, [⟨some ⟨[4, 4], 1⟩, none, fun _ => none⟩,
                   ⟨some ⟨[4, 4], 2⟩, none, fun _ => none⟩],
       ⟨fun a _ => a, fun _ => dfltArr⟩⟩ = .ok [⟨[4, 4], 1⟩, ⟨[4, 4], 2⟩] ∧
    shapeProp
      ⟨"u", 2, 0, [⟨some ⟨[4, 4], 1⟩, none, fun _ => none⟩,
                   ⟨some ⟨[4, 4], 2⟩, none, fun _ => none⟩],
       ⟨fun a _ => a, fun _ => dfltArr⟩⟩
      ⟨"u", ⟨"boxlib", "u"⟩, true, none, none, 0⟩ =
      .ok (⟨"u", ⟨"boxlib", "u"⟩, true, none, some [⟨[4, 4], 1⟩, ⟨[4, 4], 2⟩], 0⟩,
           [2, 4, 4]) := by
  refine ⟨rfl, ?_⟩
  have h := (shape_coarsest_cache
    ⟨"u", 2, 0, [⟨some ⟨[4, 4], 1⟩, none, fun _ => none⟩,
                 ⟨some ⟨[4, 4], 2⟩, none, fun _ => none⟩],
     ⟨fun a _ => a, fun _ => dfltArr⟩⟩
    ⟨"u", ⟨"boxlib", "u"⟩, true, none, none, 0⟩
    [⟨[4, 4], 1⟩, ⟨[4, 4], 2⟩] (by simp) rfl).2.1 rfl
  simpa using h

/- ### Claim C10 -/

/-- Claim C10: a slice bound equal to `0` is falsy under Python `or`,
so `spatial_select` substitutes the domain minimum (for `start = 0`) or
the domain maximum (for `stop = 0`) — exactly the bound an omitted
(`None`) slice bound produces, not the coordinate value 0. -/
theorem slice_zero_bound_uses_domain (dom : DomainInfo)
    (kwargs : String → Option SelArg) (i : Nat) (dim : String)
    (h : (coordNames dom.dimensionality)[i]? = some dim) :
    (∀ stop, kwargs dim = some (SelArg.interval (some 0) stop) →
      (spatialSelect dom kwargs).1[i]? = some (dom.ranges dim).1 ∧
      ∀ kwargs2, kwargs2 dim = some (SelArg.interval none stop) →
        (spatialSelect dom kwargs2).1[i]? = (spatialSelect dom kwargs).1[i]?) ∧
    (∀ start, kwargs dim = some (SelArg.interval start (some 0)) →
      (spatialSelect dom kwargs).2[i]? = some (dom.ranges dim).2 ∧
      ∀ kwargs2, kwargs2 dim = some (SelArg.interval start none) →
        (spatialSelect dom kwargs2).2[i]? = (spatialSelect dom kwargs).2[i]?) := by
  constructor
  · intro stop hk
    have e1 : (spatialSelect dom kwargs).1[i]? = some (selectBounds dom kwargs dim).1 := by
      simp only [spatialSelect, List.getElem?_map, h, Option.map_some']
    constructor
    · rw [e1]
      simp [selectBounds, hk, pyOrQ]
    · intro kwargs2 hk2
      have e2 : (spatialSelect dom kwargs2).1[i]? = some (selectBounds dom kwargs2 dim).1 := by
        simp only [spatialSelect, List.getElem?_map, h, Option.map_some']
      rw [e1, e2]
      simp [selectBounds, hk, hk2, pyOrQ]
  · intro start hk
    have e1 : (spatialSelect dom kwargs).2[i]? = some (selectBounds dom kwargs dim).2 := by
      simp only [spatialSelect, List.getElem?_map, h, Option.map_some']
    constructor
    · rw [e1]
      simp [selectBounds, hk, pyOrQ]
    · intro kwargs2 hk2
      have e2 : (spatialSelect dom kwargs2).2[i]? = some (selectBounds dom kwargs2 dim).2 := by
        simp only [spatialSelect, List.getElem?_map, h, Option.map_some']
      rw [e1, e2]
      simp [selectBounds, hk, hk2, pyOrQ]

/-- A 2-dimensional domain with `x` extent `[-1, 5]` (so the domain
minimum differs from the coordinate value 0). -/
def c10dom : DomainInfo := ⟨2, fun d => if d = "x" then (-1, 5) else (0, 1)⟩

/-- `spatial_select(x=slice(0, 2))`. -/
def c10kwargs : String → Option SelArg :=
  fun d => if d = "x" then some (SelArg.interval (some 0) (some 2)) else none

/-- `spatial_select(x=slice(None, 2))` — the start bound omitted. -/
def c10kwargs2 : String → Option SelArg :=
  fun d => if d = "x" then some (SelArg.interval none (some 2)) else none

/-- Witness for C10: with `x` domain `[-1, 5]`, a slice start of `0`
yields left bound `-1` (the domain minimum, not 0), identical to the
omitted-bound call. -/
theorem slice_zero_bound_uses_domain_witness :
    (spatialSelect c10dom c10kwargs).1[0]? = some (c10dom.ranges "x").1 ∧
    (spatialSelect c10dom c10kwargs2).1[0]? = (spatialSelect c10dom c10kwargs).1[0]? ∧
    (c10dom.ranges "x").1 = -1 := by
  have h := (slice_zero_bound_uses_domain c10dom c10kwargs 0 "x" (by decide)).1
    (some 2) (by simp [c10kwargs])
  exact ⟨h.1, h.2 c10kwargs2 (by simp [c10kwargs2]), by norm_num [c10dom]⟩

/- ### Claim C3 -/

/-- A 2-dimensional domain with unit extent on every axis. -/
def c3dom : DomainInfo := ⟨2, fun _ => (0, 1)⟩

/-- `spatial_select(x=0.5)` — a scalar argument for `x` only. -/
def c3kwargs : String → Option SelArg :=
  fun d => if d = "x" then some (SelArg.scalar (1 / 2)) else none

/-- Claim C3 counterexample: for the unit-extent axis `x` and scalar
value 1/2 the constructed region on `x` is `[49/100, 51/100]`: its
width `1/50` is 2% of the domain extent, not the claimed 1% (the
source pads by 1% of the extent on each side). -/
theorem scalar_width_counterexample :
    (spatialSelect c3dom c3kwargs).1 = [49 / 100, 0] ∧
    (spatialSelect c3dom c3kwargs).2 = [51 / 100, 1] ∧
    (51 / 100 : ℚ) - 49 / 100 ≠ (1 / 100) * (1 - 0) ∧
    (51 / 100 : ℚ) - 49 / 100 = (2 / 100) * (1 - 0) := by
  have hyx : ("y" : String) = "x" ↔ False := iff_false_intro (by decide)
  have hxx : ("x" : String) = "x" ↔ True := iff_true_intro rfl
  refine ⟨?_, ?_, by norm_num, by norm_num⟩
  · norm_num [spatialSelect, selectBounds, coordNames, axisNames, c3dom, c3kwargs, pyOrQ,
      hyx, hxx]
  · norm_num [spatialSelect, selectBounds, coordNames, axisNames, c3dom, c3kwargs, pyOrQ,
      hyx, hxx]

/-- Claim C3 (amended): a scalar argument `v` for a spatial axis yields
the region `[v - e/100, v + e/100]` on that axis, where `e` is the
axis's domain extent — a thin region of width 2% of the extent centred
on `v` — and an omitted axis spans the full domain extent. -/
theorem spatial_select_bounds_amended (dom : DomainInfo)
    (kwargs : String → Option SelArg) (i : Nat) (dim : String)
    (h : (coordNames dom.dimensionality)[i]? = some dim) :
    (∀ v, kwargs dim = some (SelArg.scalar v) →
      (spatialSelect dom kwargs).1[i]? =
        some (v - (1 / 100) * ((dom.ranges dim).2 - (dom.ranges dim).1)) ∧
      (spatialSelect dom kwargs).2[i]? =
        some (v + (1 / 100) * ((dom.ranges dim).2 - (dom.ranges dim).1))) ∧
    (kwargs dim = none →
      (spatialSelect dom kwargs).1[i]? = some (dom.ranges dim).1 ∧
      (spatialSelect dom kwargs).2[i]? = some (dom.ranges dim).2) := by
  have e1 : (spatialSelect dom kwargs).1[i]? = some (selectBounds dom kwargs dim).1 := by
    simp only [spatialSelect, List.getElem?_map, h, Option.map_some']
  have e2 : (spatialSelect dom kwargs).2[i]? = some (selectBounds dom kwargs dim).2 := by
    simp only [spatialSelect, List.getElem?_map, h, Option.map_some']
  constructor
  · intro v hk
    rw [e1, e2]
    constructor
    · simp [selectBounds, hk]
    · simp [selectBounds, hk]
  · intro hk
    rw [e1, e2]
    constructor
    · simp [selectBounds, hk]
    · simp [selectBounds, hk]

/-- Witness for the amended C3 at the concrete input of the
counterexample: bounds `1/2 ∓ 1/100` on `x`, full domain on `y`. -/
theorem spatial_select_bounds_amended_witness :
    (spatialSelect c3dom c3kwargs).1[0]? = some (1 / 2 - (1 / 100) * (1 - 0)) ∧
    (spatialSelect c3dom c3kwargs).2[0]? = some (1 / 2 + (1 / 100) * (1 - 0)) ∧
    (spatialSelect c3dom c3kwargs).1[1]? = some 0 ∧
    (spatialSelect c3dom c3kwargs).2[1]? = some 1 := by
  have hx := (spatial_select_bounds_amended c3dom c3kwargs 0 "x" (by decide)).1
    (1 / 2) (by simp [c3kwargs])
  have hy := (spatial_select_bounds_amended c3dom c3kwargs 1 "y" (by decide)).2
    (by simp [c3kwargs])
  exact ⟨hx.1, hx.2, hy.1, hy.2⟩

/- ### Claim C4 -/

/-- Claim C4 counterexample: on tied times `[1, 1]` the index list
`[1, 0]` satisfies the full contract of `np.argsort` (a permutation of
`range(2)` sorting the times), yet does not break the tie by original
order, and applying it swaps `files` and the datasets while the spec's
stable sort would keep them in place — so the claim's "stable sort,
ties broken by original order" is not guaranteed by the code's
`np.argsort` call (whose default kind is documented as non-stable). -/
theorem argsort_stability_counterexample :
    IsArgsortOf [1, 1] [1, 0] ∧
    ¬ StableTieBreak [1, 1] [1, 0] ∧
    sortStep [1, 0] ⟨["a", "b"], [1, 1], [10, 11]⟩ = ⟨["b", "a"], [1, 1], [11, 10]⟩ := by
  refine ⟨⟨by decide, ?_⟩, ?_, by decide⟩
  · have hp : permuteBy [1, 0] (0 : ℚ) [1, 1] = [1, 1] := by decide
    rw [hp]
    simp [List.chain'_cons]
  · simp [StableTieBreak]

/-- Claim C4 (amended): for every index list satisfying the
`np.argsort` contract, the sorting step permutes `files`, `times` and
the datasets by exactly that same index list, the resulting times are
nondecreasing, and each sequence is a rearrangement of the original —
but the tie order is whatever the argsort returned, with stability not
guaranteed. -/
theorem time_sort_amended (st : TimeSeriesState) (idx : List Nat)
    (h : IsArgsortOf st.times idx)
    (hf : st.files.length = st.times.length)
    (hy : st.ytds.length = st.times.length) :
    (sortStep idx st).files = permuteBy idx "" st.files ∧
    (sortStep idx st).times = permuteBy idx 0 st.times ∧
    (sortStep idx st).ytds = permuteBy idx 0 st.ytds ∧
    (sortStep idx st).times.Chain' (· ≤ ·) ∧
    (sortStep idx st).times.Perm st.times ∧
    (sortStep idx st).files.Perm st.files ∧
    (sortStep idx st).ytds.Perm st.ytds := by
  refine ⟨rfl, rfl, rfl, h.2, ?_, ?_, ?_⟩
  · exact permuteBy_perm_self 0 idx st.times h.1
  · refine permuteBy_perm_self "" idx st.files ?_
    rw [hf]
    exact h.1
  · refine permuteBy_perm_self 0 idx st.ytds ?_
    rw [hy]
    exact h.1

/-- Witness for the amended C4 on a concrete descending two-file
series, sorted by the (here unique) contract-satisfying index list. -/
theorem time_sort_amended_witness :
    IsArgsortOf ([2, 1] : List ℚ) [1, 0] ∧
    (sortStep [1, 0] ⟨["b", "a"], [2, 1], [0, 1]⟩).times.Chain' (· ≤ ·) ∧
    (sortStep [1, 0] ⟨["b", "a"], [2, 1], [0, 1]⟩).times.Perm [2, 1] ∧
    (sortStep [1, 0] ⟨["b", "a"], [2, 1], [0, 1]⟩).files.Perm ["b", "a"] := by
  have ha : IsArgsortOf ([2, 1] : List ℚ) [1, 0] := by
    refine ⟨by decide, ?_⟩
    have hp : permuteBy [1, 0] (0 : ℚ) [2, 1] = [1, 2] := by decide
    rw [hp]
    simp [List.chain'_cons]
  have h := time_sort_amended ⟨["b", "a"], [2, 1], [0, 1]⟩ [1, 0] ha rfl rfl
  exact ⟨ha, h.2.2.2.1, h.2.2.2.2.1, h.2.2.2.2.2.1⟩

/- ### Claim C1 -/

theorem dictMember_insert_self (d : List (String × FieldTuple)) (k : String) (v : FieldTuple) :
    dictMember (dictInsertNew d k v) k = true := by
  unfold dictMember dictInsertNew dictLookup
  rw [List.find?_append]
  cases hfd : List.find? (fun p => decide (p.1 = k)) d with
  | some p => simp [Option.or]
  | none =>
    rw [List.find?_cons_of_pos _ (by simp)]
    simp [Option.or]

/-- One `gradient(f, "x")` call on a state whose `data_vars` already
holds the derived name: state change is exactly the per-snapshot Engine
registration. -/
theorem gradientMeth_x_hit (st : CalcState) (f : String) (tup : FieldTuple)
    (hf : dictLookup st.dataVars f = some tup)
    (hm : dictMember st.dataVars (f ++ "_gradient_" ++ "x") = true) :
    gradientMeth st f "x" =
      .ok (engineAddGradAll st tup,
           ⟨f ++ "_gradient_" ++ "x",
            (dictLookup st.dataVars (f ++ "_gradient_" ++ "x")).getD
              ⟨tup.ns, f ++ "_gradient_" ++ "x"⟩⟩) := by
  unfold gradientMeth
  rw [if_neg (by decide : ¬(("x" : String) ∉ axisNames)), hf]
  simp only [engineAddGradAll]
  rw [if_pos hm]

/-- One `gradient(f, "x")` call on a state whose `data_vars` does not
yet hold the derived name: the Engine registration happens and the new
binding is appended. -/
theorem gradientMeth_x_miss (st : CalcState) (f : String) (tup : FieldTuple)
    (hf : dictLookup st.dataVars f = some tup)
    (hm : ¬dictMember st.dataVars (f ++ "_gradient_" ++ "x") = true) :
    gradientMeth st f "x" =
      .ok ({ engineAddGradAll st tup with
               dataVars := dictInsertNew st.dataVars (f ++ "_gradient_" ++ "x")
                 ⟨tup.ns, f ++ "_gradient_" ++ "x"⟩ },
           ⟨f ++ "_gradient_" ++ "x",
            (dictLookup (dictInsertNew st.dataVars (f ++ "_gradient_" ++ "x")
                 ⟨tup.ns, f ++ "_gradient_" ++ "x"⟩) (f ++ "_gradient_" ++ "x")).getD
              ⟨tup.ns, f ++ "_gradient_" ++ "x"⟩⟩) := by
  unfold gradientMeth
  rw [if_neg (by decide : ¬(("x" : String) ∉ axisNames)), hf]
  simp only [engineAddGradAll]
  rw [if_neg hm]

/-- Claim C1 counterexample: on a one-snapshot dataset with field `f`,
calling `calc.gradient("f", "x")` twice yields the same derived field
name both times, but the second call performs another
`add_gradient_fields` Engine registration call (count 1 after the first
call, 2 after the second) — the registration call count is NOT
unaffected by the second call, because `gradient` has no
already-registered check. -/
theorem gradient_reregisters_counterexample :
    ∃ st1 r1 st2 r2,
      gradientMeth ⟨[("f", ⟨"boxlib", "f"⟩)], [⟨[]⟩], 3, 0, 0⟩ "f" "x" = .ok (st1, r1) ∧
      gradientMeth st1 "f" "x" = .ok (st2, r2) ∧
      r1.fieldName = "f_gradient_x" ∧ r2.fieldName = "f_gradient_x" ∧
      st1.gradRegCalls = 1 ∧ st2.gradRegCalls = 2 :=
  ⟨_, _, _, _, rfl, rfl, rfl, rfl, rfl, rfl⟩

/-- Claim C1 (amended): registration through
`_add_derived_field_to_all_timesteps` (the path used by `divergence`
and `vorticity`) is idempotent — re-registering the same derived field
tuple is a no-op checked before registration; and `calc.gradient(f,'x')`
called twice returns a DataArray with the same field name both times
and does not duplicate the `data_vars` entry, BUT each call (the second
included) issues one `add_gradient_fields` Engine registration call per
snapshot, so the registration call count grows by the number of
snapshots on the second call. -/
theorem gradient_idempotence_amended (st : CalcState) (ft : FieldTuple)
    (f : String) (tup : FieldTuple) (hf : dictLookup st.dataVars f = some tup) :
    addDerivedFieldToAllTimesteps (addDerivedFieldToAllTimesteps st ft) ft =
      addDerivedFieldToAllTimesteps st ft ∧
    ∃ st1 r1 st2 r2,
      gradientMeth st f "x" = .ok (st1, r1) ∧
      gradientMeth st1 f "x" = .ok (st2, r2) ∧
      r1.fieldName = f ++ "_gradient_" ++ "x" ∧
      r2.fieldName = f ++ "_gradient_" ++ "x" ∧
      dictMember st1.dataVars (f ++ "_gradient_" ++ "x") = true ∧
      st2.dataVars = st1.dataVars ∧
      st2.gradRegCalls = st1.gradRegCalls + st1.snaps.length ∧
      st1.snaps.length = st.snaps.length := by
  constructor
  · have hmem : ∀ s ∈ st.snaps.map (fun s =>
        if ft ∈ s.derivedFields then s
        else { derivedFields := s.derivedFields ++ [ft] }),
        ft ∈ s.derivedFields := by
      intro s hs
      obtain ⟨s0, _, rfl⟩ := List.mem_map.mp hs
      by_cases h : ft ∈ s0.derivedFields
      · rw [if_pos h]
        exact h
      · rw [if_neg h]
        simp
    unfold addDerivedFieldToAllTimesteps
    simp only
    have hmap : (st.snaps.map (fun s =>
        if ft ∈ s.derivedFields then s
        else { derivedFields := s.derivedFields ++ [ft] })).map (fun s =>
        if ft ∈ s.derivedFields then s
        else { derivedFields := s.derivedFields ++ [ft] }) =
        st.snaps.map (fun s =>
        if ft ∈ s.derivedFields then s
        else { derivedFields := s.derivedFields ++ [ft] }) := by
      rw [List.map_congr_left (fun s hs => if_pos (hmem s hs))]
      exact List.map_id' _
    have hfil : (st.snaps.map (fun s =>
        if ft ∈ s.derivedFields then s
        else { derivedFields := s.derivedFields ++ [ft] })).filter
        (fun s => decide (ft ∉ s.derivedFields)) = [] := by
      rw [List.filter_eq_nil_iff]
      intro s hs
      simp [hmem s hs]
    rw [hmap, hfil]
    simp
  · by_cases hm : dictMember st.dataVars (f ++ "_gradient_" ++ "x") = true
    · have h1 := gradientMeth_x_hit st f tup hf hm
      have h2 := gradientMeth_x_hit (engineAddGradAll st tup) f tup hf hm
      refine ⟨_, _, _, _, h1, h2, rfl, rfl, hm, rfl, rfl, by simp [engineAddGradAll]⟩
    · have h1 := gradientMeth_x_miss st f tup hf hm
      have hfB : dictLookup
          ({ engineAddGradAll st tup with
               dataVars := dictInsertNew st.dataVars (f ++ "_gradient_" ++ "x")
                 ⟨tup.ns, f ++ "_gradient_" ++ "x"⟩ } : CalcState).dataVars f = some tup :=
        dictLookup_append_of_some _ _ _ _ hf
      have hmB : dictMember
          ({ engineAddGradAll st tup with
               dataVars := dictInsertNew st.dataVars (f ++ "_gradient_" ++ "x")
                 ⟨tup.ns, f ++ "_gradient_" ++ "x"⟩ } : CalcState).dataVars
          (f ++ "_gradient_" ++ "x") = true :=
        dictMember_insert_self _ _ _
      have h2 := gradientMeth_x_hit
        { engineAddGradAll st tup with
            dataVars := dictInsertNew st.dataVars (f ++ "_gradient_" ++ "x")
              ⟨tup.ns, f ++ "_gradient_" ++ "x"⟩ } f tup hfB hmB
      refine ⟨_, _, _, _, h1, h2, rfl, rfl, hmB, rfl, rfl, by simp [engineAddGradAll]⟩

/-- Witness for the amended C1, applied on the concrete one-snapshot
dataset of the counterexample. -/
theorem gradient_idempotence_amended_witness :
    dictLookup [("f", ⟨"boxlib", "f"⟩)] "f" = some ⟨"boxlib", "f"⟩ ∧
    (addDerivedFieldToAllTimesteps
       (addDerivedFieldToAllTimesteps ⟨[("f", ⟨"boxlib", "f"⟩)], [⟨[]⟩], 3, 0, 0⟩
         ⟨"boxlib", "divergence"⟩) ⟨"boxlib", "divergence"⟩ =
     addDerivedFieldToAllTimesteps ⟨[("f", ⟨"boxlib", "f"⟩)], [⟨[]⟩], 3, 0, 0⟩
       ⟨"boxlib", "divergence"⟩) ∧
    (∃ st1 r1 st2 r2,
      gradientMeth ⟨[("f", ⟨"boxlib", "f"⟩)], [⟨[]⟩], 3, 0, 0⟩ "f" "x" = .ok (st1, r1) ∧
      gradientMeth st1 "f" "x" = .ok (st2, r2) ∧
      r1.fieldName = "f" ++ "_gradient_" ++ "x" ∧
      r2.fieldName = "f" ++ "_gradient_" ++ "x" ∧
      dictMember st1.dataVars ("f" ++ "_gradient_" ++ "x") = true ∧
      st2.dataVars = st1.dataVars ∧
      st2.gradRegCalls = st1.gradRegCalls + st1.snaps.length ∧
      st1.snaps.length = (⟨[("f", ⟨"boxlib", "f"⟩)], [⟨[]⟩], 3, 0, 0⟩ : CalcState).snaps.length) :=
  ⟨by decide,
   (gradient_idempotence_amended ⟨[("f", ⟨"boxlib", "f"⟩)], [⟨[]⟩], 3, 0, 0⟩
     ⟨"boxlib", "divergence"⟩ "f" ⟨"boxlib", "f"⟩ (by decide)).1,
   (gradient_idempotence_amended ⟨[("f", ⟨"boxlib", "f"⟩)], [⟨[]⟩], 3, 0, 0⟩
     ⟨"boxlib", "divergence"⟩ "f" ⟨"boxlib", "f"⟩ (by decide)).2⟩

/- ### Claim C2 -/

/-- Claim C2 counterexample: the divergence recipe with `w_field` given,
evaluated on a 3-dimensional dataset, is NOT free of side effects: at
evaluation time it resolves `data_vars[w_field]` from the current
dataset state and issues an `add_gradient_fields` Engine registration
call per snapshot, mutating the Engine registries (here: the call count
rises to 1 and the snapshot registry gains the three w-gradient
fields). -/
theorem divergence_recipe_mutates_counterexample :
    ∃ st1 v,
      divergenceRecipeEval ⟨⟨"boxlib", "u_gradient_x"⟩, ⟨"boxlib", "v_gradient_y"⟩, some "w"⟩
        ⟨[("w", ⟨"boxlib", "w"⟩)], [⟨[]⟩], 3, 0, 0⟩ (fun _ => 0) = .ok (st1, v) ∧
      st1 ≠ ⟨[("w", ⟨"boxlib", "w"⟩)], [⟨[]⟩], 3, 0, 0⟩ ∧
      st1.gradRegCalls = 1 ∧
      st1.snaps = [⟨[⟨"boxlib", "w_gradient_x"⟩, ⟨"boxlib", "w_gradient_y"⟩,
                     ⟨"boxlib", "w_gradient_z"⟩]⟩] :=
  ⟨_, _, rfl, by decide, rfl, rfl⟩

/-- Claim C2 (amended): the vorticity recipe, and the divergence recipe
when `w_field` is absent (or the dimensionality is not 3), are pure
elementwise combinations of the field tuples closed over at
registration time, leaving Dataset and Engine state untouched; but the
divergence recipe with a truthy `w_field` on a 3-dimensional dataset
resolves `w_field`'s identifier from `data_vars` at evaluation time and
performs one Engine gradient registration per snapshot during
evaluation, then adds the `∂w/∂z` term. -/
theorem recipe_purity_amended (uGX vGY uGY vGX : FieldTuple) (st : CalcState)
    (data : FieldTuple → Int) :
    vorticityRecipeEval ⟨uGY, vGX⟩ st data = .ok (st, data vGX - data uGY) ∧
    divergenceRecipeEval ⟨uGX, vGY, none⟩ st data = .ok (st, data uGX + data vGY) ∧
    (∀ w, st.dimensionality ≠ 3 →
      divergenceRecipeEval ⟨uGX, vGY, some w⟩ st data = .ok (st, data uGX + data vGY)) ∧
    (∀ w wt, w ≠ "" → st.dimensionality = 3 → dictLookup st.dataVars w = some wt →
      divergenceRecipeEval ⟨uGX, vGY, some w⟩ st data =
        .ok (engineAddGradAll st wt,
             data uGX + data vGY + data ⟨wt.ns, w ++ "_gradient_z"⟩)) := by
  refine ⟨rfl, rfl, ?_, ?_⟩
  · intro w hd
    unfold divergenceRecipeEval
    simp only
    rw [if_neg (fun hc => hd hc.2)]
  · intro w wt hw hd hl
    unfold divergenceRecipeEval
    simp only
    rw [if_pos ⟨hw, hd⟩, hl]

/-- Witness for the amended C2 on concrete inputs: vorticity is pure,
and divergence with `w_field="w"` in 3 dimensions registers w-gradients
and sums three samples. -/
theorem recipe_purity_amended_witness :
    ("w" : String) ≠ "" ∧
    dictLookup [("w", ⟨"boxlib", "w"⟩)] "w" = some ⟨"boxlib", "w"⟩ ∧
    vorticityRecipeEval ⟨⟨"boxlib", "a"⟩, ⟨"boxlib", "b"⟩⟩
      ⟨[("w", ⟨"boxlib", "w"⟩)], [⟨[]⟩], 3, 0, 0⟩ (fun _ => 5) =
      .ok (⟨[("w", ⟨"boxlib", "w"⟩)], [⟨[]⟩], 3, 0, 0⟩, 0) ∧
    divergenceRecipeEval ⟨⟨"boxlib", "a"⟩, ⟨"boxlib", "b"⟩, some "w"⟩
      ⟨[("w", ⟨"boxlib", "w"⟩)], [⟨[]⟩], 3, 0, 0⟩ (fun _ => 5) =
      .ok (engineAddGradAll ⟨[("w", ⟨"boxlib", "w"⟩)], [⟨[]⟩], 3, 0, 0⟩ ⟨"boxlib", "w"⟩, 15) := by
  refine ⟨by decide, by decide, ?_, ?_⟩
  · have h := (recipe_purity_amended ⟨"boxlib", "a"⟩ ⟨"boxlib", "b"⟩ ⟨"boxlib", "a"⟩
      ⟨"boxlib", "b"⟩ ⟨[("w", ⟨"boxlib", "w"⟩)], [⟨[]⟩], 3, 0, 0⟩ (fun _ => 5)).1
    simpa using h
  · have h := (recipe_purity_amended ⟨"boxlib", "a"⟩ ⟨"boxlib", "b"⟩ ⟨"boxlib", "a"⟩
      ⟨"boxlib", "b"⟩ ⟨[("w", ⟨"boxlib", "w"⟩)], [⟨[]⟩], 3, 0, 0⟩ (fun _ => 5)).2.2.2
      "w" ⟨"boxlib", "w"⟩ (by decide) rfl (by decide)
    simpa using h
